import Mathlib

/-
Shallow embedding of the skelly_tracker / skellytracker pipeline core:
the Mediapipe observation normalization, the OpenPose external-result
ingestion recorder, the brightest-point recorder, and the batch
orchestrator that fans per-video processing out and stacks the results.

Numeric model: Python floats are modelled as an inductive value that is
either the not-a-number sentinel or a finite rational.  numpy arrays are
modelled as (nested) Lean lists; fallible numpy operations (stacking,
slice assignment with shape checks, reshape) return Except.
-/

set_option maxRecDepth 10000

namespace SkellyTracker

/-- Model of a numpy float64 cell: either NaN or a finite value (rationals
stand in for the finite floats; none of the verified code paths round). -/
inductive NpFloat where
  | nan : NpFloat
  | fin : ℚ → NpFloat
deriving DecidableEq, Repr

/-- One (x, y, depth) cell row of a trajectory array. -/
abbrev Triple := NpFloat × NpFloat × NpFloat

/-- Row written by np.full((.., 3), np.nan). -/
def nanTriple : Triple := (NpFloat.nan, NpFloat.nan, NpFloat.nan)

/-- Wrap a finite coordinate triple as array cells. -/
def finTriple (p : ℚ × ℚ × ℚ) : Triple :=
  (NpFloat.fin p.1, NpFloat.fin p.2.1, NpFloat.fin p.2.2)

/-- Decidable equality of Except results, for evaluating fallible
operations at concrete inputs. -/
instance exceptDecEq {e a : Type} [DecidableEq e] [DecidableEq a] :
    DecidableEq (Except e a) := fun x y =>
  match x, y with
  | Except.ok u, Except.ok v =>
      if h : u = v then isTrue (by rw [h])
      else isFalse (by intro hh; cases hh; exact h rfl)
  | Except.error u, Except.error v =>
      if h : u = v then isTrue (by rw [h])
      else isFalse (by intro hh; cases hh; exact h rfl)
  | Except.ok _, Except.error _ => isFalse (by intro h; cases h)
  | Except.error _, Except.ok _ => isFalse (by intro h; cases h)

namespace Mediapipe

/-- Number of entries of mediapipe PoseLandmark (the body landmark names list). -/
def num_body_points : ℕ := 33

/-- Number of entries of mediapipe HandLandmark (the hand landmark names list). -/
def num_single_hand_points : ℕ := 21

/-- FACEMESH_NUM_LANDMARKS_WITH_IRISES from the mediapipe face mesh module. -/
def num_face_points : ℕ := 478

/-- MediapipeObservation.num_total_points: body + 2 hands + face. -/
def num_total_points : ℕ := num_body_points + (2 * num_single_hand_points) + num_face_points

/-- A mediapipe NormalizedLandmark: normalized (x, y, z) coordinates. -/
abbrev Landmark := ℚ × ℚ × ℚ

/-- MediapipeObservation (mediapipe_observation.py): four optional landmark
regions plus the source image size (width, height).  A region that the
detector did not report is None. -/
structure MediapipeObservation where
  pose_landmarks : Option (List Landmark)
  right_hand_landmarks : Option (List Landmark)
  left_hand_landmarks : Option (List Landmark)
  face_landmarks : Option (List Landmark)
  image_size : ℤ × ℤ
deriving DecidableEq, Repr

namespace MediapipeObservation

/-- MediapipeObservation.landmarks_to_array: collect the (x, y, z) tuples
into an array, then multiply elementwise by [width, height, width]
(z is scaled by the image width per the mediapipe docs comment). -/
def landmarks_to_array (obs : MediapipeObservation) (landmarks : List Landmark) :
    List (ℚ × ℚ × ℚ) :=
  let landmark_array := landmarks.map (fun lm => (lm.1, lm.2.1, lm.2.2))
  landmark_array.map
    (fun lm =>
      (lm.1 * (obs.image_size.1 : ℚ),
       lm.2.1 * (obs.image_size.2 : ℚ),
       lm.2.2 * (obs.image_size.1 : ℚ)))

/-- MediapipeObservation.pose_trajectories: NaN block when the region is
None, otherwise the denormalized landmark array. -/
def pose_trajectories (obs : MediapipeObservation) : List Triple :=
  match obs.pose_landmarks with
  | none => List.replicate num_body_points nanTriple
  | some l => (obs.landmarks_to_array l).map finTriple

/-- MediapipeObservation.right_hand_trajectories. -/
def right_hand_trajectories (obs : MediapipeObservation) : List Triple :=
  match obs.right_hand_landmarks with
  | none => List.replicate num_single_hand_points nanTriple
  | some l => (obs.landmarks_to_array l).map finTriple

/-- MediapipeObservation.left_hand_trajectories. -/
def left_hand_trajectories (obs : MediapipeObservation) : List Triple :=
  match obs.left_hand_landmarks with
  | none => List.replicate num_single_hand_points nanTriple
  | some l => (obs.landmarks_to_array l).map finTriple

/-- MediapipeObservation.face_trajectories. -/
def face_trajectories (obs : MediapipeObservation) : List Triple :=
  match obs.face_landmarks with
  | none => List.replicate num_face_points nanTriple
  | some l => (obs.landmarks_to_array l).map finTriple

/-- MediapipeObservation.all_holistic_trajectories: concatenation in the
fixed order pose, right hand, left hand, face. -/
def all_holistic_trajectories (obs : MediapipeObservation) : List Triple :=
  obs.pose_trajectories ++ obs.right_hand_trajectories ++
    obs.left_hand_trajectories ++ obs.face_trajectories

end MediapipeObservation

/-- The dict built by MediapipeObservation.to_serializable_dict: the four
trajectory lists plus the image size. -/
structure SerDict where
  pose_trajectories : List Triple
  right_hand_trajectories : List Triple
  left_hand_trajectories : List Triple
  face_trajectories : List Triple
  image_size : ℤ × ℤ
deriving DecidableEq, Repr

/-- Render an array cell the way json.dumps (allow_nan defaulting to True)
renders a float: NaN becomes the bare token NaN, finite values a decimal
literal. -/
def renderCell : NpFloat → String
  | NpFloat.nan => "NaN"
  | NpFloat.fin q => toString q

/-- Render one (x, y, depth) row as a JSON array. -/
def renderTriple (t : Triple) : String :=
  "[" ++ renderCell t.1 ++ ", " ++ renderCell t.2.1 ++ ", " ++ renderCell t.2.2 ++ "]"

/-- Render a trajectory list as a JSON array of rows. -/
def renderTrajectories (l : List Triple) : String :=
  "[" ++ String.intercalate ", " (l.map renderTriple) ++ "]"

/-- Model of json.dumps on the serializable dict.  CPython json.dumps with
its default allow_nan=True encodes NaN and the infinities as the
non-standard tokens NaN/Infinity instead of raising, and every value in
this dict is a float, an int or a (nested) list of those, so the encoding
is total: it returns some encoding for every input and never fails. -/
def json_dumps (d : SerDict) : Option String :=
  some
    ("\x7b\x22pose_trajectories\x22: " ++ renderTrajectories d.pose_trajectories ++
     ", \x22right_hand_trajectories\x22: " ++ renderTrajectories d.right_hand_trajectories ++
     ", \x22left_hand_trajectories\x22: " ++ renderTrajectories d.left_hand_trajectories ++
     ", \x22face_trajectories\x22: " ++ renderTrajectories d.face_trajectories ++
     ", \x22image_size\x22: [" ++ toString d.image_size.1 ++ ", " ++
       toString d.image_size.2 ++ "]\x7d")

namespace MediapipeObservation

/-- The dict value d assembled inside to_serializable_dict. -/
def serializable_dict_of (obs : MediapipeObservation) : SerDict :=
  { pose_trajectories := obs.pose_trajectories
    right_hand_trajectories := obs.right_hand_trajectories
    left_hand_trajectories := obs.left_hand_trajectories
    face_trajectories := obs.face_trajectories
    image_size := obs.image_size }

/-- MediapipeObservation.to_serializable_dict: build the dict, attempt a
json.dumps round through it inside try/except, and re-raise any encoding
failure as a ValueError; on success return the dict itself. -/
def to_serializable_dict (obs : MediapipeObservation) : Except String SerDict :=
  let d := obs.serializable_dict_of
  match json_dumps d with
  | some _ => Except.ok d
  | none => Except.error "Failed to serialize MediapipeObservation to JSON"

end MediapipeObservation

/-- Does any trajectory list of the dict contain a non-finite cell? -/
def SerDict.hasNonFinite (d : SerDict) : Bool :=
  (d.pose_trajectories ++ d.right_hand_trajectories ++
     d.left_hand_trajectories ++ d.face_trajectories).any
    (fun t => t.1 == NpFloat.nan || t.2.1 == NpFloat.nan || t.2.2 == NpFloat.nan)

end Mediapipe

namespace OpenPose

/-- Modelled from the spec: OpenPoseModelInfo (its module is absent from the
sources; only openpose_recorder.py references it).  The spec describes body,
hand and face marker groups; the counts follow the standard OpenPose
BODY_25 layout (25 body, 21 per hand, 70 face).  No verified property
depends on the particular values. -/
def num_tracked_points : ℕ := 25

/-- Modelled from the spec: OpenPoseModelInfo.hand_markers. -/
def hand_markers : ℕ := 21

/-- Modelled from the spec: OpenPoseModelInfo.face_markers. -/
def face_markers : ℕ := 70

/-- One entry of the people list of an OpenPose per-frame JSON: the
optional flat keypoint lists keyed by region name. -/
structure PersonData where
  pose_keypoints_2d : Option (List ℚ)
  hand_left_keypoints_2d : Option (List ℚ)
  hand_right_keypoints_2d : Option (List ℚ)
  face_keypoints_2d : Option (List ℚ)
deriving DecidableEq, Repr

/-- np.reshape(flat, (-1, 3)): regroup a flat list into rows of three;
fails (ValueError) when the length is not a multiple of three. -/
def reshape3 : List ℚ → Except String (List (ℚ × ℚ × ℚ))
  | [] => Except.ok []
  | x :: y :: z :: rest => (reshape3 rest).map (fun rows => (x, y, z) :: rows)
  | _ => Except.error "cannot reshape array into shape (-1,3)"

/-- numpy slice assignment a[o : o + n, :] = b for row lists: succeeds when
b has exactly n rows, broadcasts a single row across the slice, and
otherwise raises a broadcast ValueError. -/
def assignSlice (a : List Triple) (o n : ℕ) (b : List Triple) :
    Except String (List Triple) :=
  if b.length = n then
    Except.ok (a.take o ++ b ++ a.drop (o + n))
  else if b.length = 1 then
    Except.ok (a.take o ++ List.replicate n (b.headD nanTriple) ++ a.drop (o + n))
  else
    Except.error "could not broadcast input array"

/-- OpenPoseRecorder.extract_keypoints: start from a NaN-filled array of
body + 2 hands + face rows and fill each sub-block from the matching key
when present; both hand keys must be present for either hand block to be
written.  The config flags are not consulted here. -/
def extract_keypoints (person_data : PersonData) : Except String (List Triple) := do
  let body_markers := num_tracked_points
  let keypoints_array := List.replicate (body_markers + (2 * hand_markers) + face_markers) nanTriple
  let keypoints_array ←
    match person_data.pose_keypoints_2d with
    | none => Except.ok keypoints_array
    | some flat => do
        let rows ← reshape3 flat
        assignSlice keypoints_array 0 body_markers ((rows.take body_markers).map finTriple)
  let keypoints_array ←
    match person_data.hand_left_keypoints_2d, person_data.hand_right_keypoints_2d with
    | some left_flat, some right_flat => do
        let left_rows ← reshape3 left_flat
        let a ← assignSlice keypoints_array body_markers hand_markers
          ((left_rows.take hand_markers).map finTriple)
        let right_rows ← reshape3 right_flat
        assignSlice a (body_markers + hand_markers) hand_markers
          ((right_rows.take hand_markers).map finTriple)
    | _, _ => Except.ok keypoints_array
  match person_data.face_keypoints_2d with
  | none => Except.ok keypoints_array
  | some flat => do
      let rows ← reshape3 flat
      assignSlice keypoints_array (body_markers + 2 * hand_markers) face_markers
        ((rows.take face_markers).map finTriple)

/-- Decimal value of a digit string (int of the matched group; leading
zeros are allowed). -/
def digitsVal (cs : List Char) : ℕ :=
  cs.foldl (fun a c => 10 * a + (c.toNat - 48)) 0

/-- Attempt to match the pattern underscore, exactly twelve digits,
underscore, the literal keypoints, at the head of the character list. -/
def matchKeypointsAt : List Char → Option ℕ
  | c :: rest =>
      if c = '_' then
        let ds := rest.take 12
        if ds.length = 12 && ds.all Char.isDigit &&
            "_keypoints".toList.isPrefixOf (rest.drop 12) then
          some (digitsVal ds)
        else
          none
      else
        none
  | [] => none

/-- Leftmost match of the frame-index pattern, scanning one start position
at a time the way re.search does. -/
def searchKeypoints : List Char → Option ℕ
  | [] => none
  | c :: rest =>
      match matchKeypointsAt (c :: rest) with
      | some n => some n
      | none => searchKeypoints rest

/-- OpenPoseRecorder.extract_frame_index: re.search for the pattern of an
underscore, a twelve-digit group and the keypoints suffix, returning the
group as an int, or None when the pattern does not occur. -/
def extract_frame_index (filename : String) : Option ℕ :=
  searchKeypoints filename.toList

/-- One discovered JSON result file: its name and its parsed people list. -/
structure OpenPoseFile where
  name : String
  people : List PersonData
deriving DecidableEq, Repr

/-- OpenPoseRecorder construction state: the two region config flags (the
directory path is part of the environment, not of the computation). -/
structure OpenPoseRecorder where
  track_hands : Bool
  track_faces : Bool
deriving DecidableEq, Repr

/-- numpy row assignment data_array[i, :, :] = keypoints: index must be in
range (IndexError otherwise) and the row count must match the row width or
be broadcastable from one row (ValueError otherwise). -/
def setRow (arr : List (List Triple)) (i : ℕ) (row : List Triple) :
    Except String (List (List Triple)) :=
  if i < arr.length then
    let width := (arr.getD i []).length
    if row.length = width then
      Except.ok (arr.take i ++ [row] ++ arr.drop (i + 1))
    else if row.length = 1 then
      Except.ok (arr.take i ++ [List.replicate width (row.headD nanTriple)] ++ arr.drop (i + 1))
    else
      Except.error "could not broadcast input array"
  else
    Except.error "IndexError: index out of bounds"

/-- OpenPoseRecorder.parse_openpose_jsons over the discovered file list (in
glob discovery order): count the files, parse a frame index out of every
filename, sort that index list in place (list.sort on ints; a None among
ints raises a TypeError, modelled as an error), size the marker axis by
the config flags, allocate a NaN-filled (num_frames, num_markers, 3)
array, and then, for each file in discovery order, write the extracted
keypoints of its first person — if it has any people — into the row
numbered by the sorted index list at that file position. -/
def parse_openpose_jsons (rec : OpenPoseRecorder) (files : List OpenPoseFile) :
    Except String (List (List Triple)) := do
  let num_frames := files.length
  let raw_indices := files.map (fun f => extract_frame_index f.name)
  if raw_indices.any (fun o => o.isNone) then
    throw "TypeError: comparison between NoneType and int is not supported"
  let frame_indices := (raw_indices.filterMap id).insertionSort (· ≤ ·)
  let num_markers := num_tracked_points +
    (if rec.track_hands then hand_markers * 2 else 0) +
    (if rec.track_faces then face_markers else 0)
  let data_array := List.replicate num_frames (List.replicate num_markers nanTriple)
  (files.enum).foldlM
    (fun arr entry =>
      match (entry.2).people with
      | [] => Except.ok arr
      | person :: _ => do
          let keypoints ← extract_keypoints person
          setRow arr (frame_indices.getD entry.1 0) keypoints)
    data_array

/-- OpenPoseRecorder.process_tracked_objects: parse the directory and store
the result as the recorded-objects array (returned here). -/
def process_tracked_objects (rec : OpenPoseRecorder) (files : List OpenPoseFile) :
    Except String (List (List Triple)) :=
  parse_openpose_jsons rec files

end OpenPose

namespace BrightPoint

/-- TrackedObject fields the brightest-point recorder reads (its module is
outside the verified core; only these three numeric fields are consumed). -/
structure TrackedObject where
  pixel_x : ℚ
  pixel_y : ℚ
  depth_z : ℚ
deriving DecidableEq, Repr

/-- BrightestPointRecorder state: the recorded objects list plus the cached
compacted array (None until process_tracked_objects runs). -/
structure BrightestPointRecorder where
  recorded_objects : List TrackedObject
  recorded_objects_array : Option (List (List (ℚ × ℚ × ℚ)))
deriving DecidableEq, Repr

/-- BrightestPointRecorder.record: append the brightest-point object. -/
def record (r : BrightestPointRecorder) (obj : TrackedObject) : BrightestPointRecorder :=
  { r with recorded_objects := r.recorded_objects ++ [obj] }

/-- One frame row written by the fill loop: a single point with the pixel
coordinates and depth of the recorded object. -/
def pointRow (o : TrackedObject) : List (ℚ × ℚ × ℚ) :=
  [(o.pixel_x, o.pixel_y, o.depth_z)]

/-- BrightestPointRecorder.process_tracked_objects: allocate a zero array
of shape (num recorded frames, 1, 3), fill row i with the i-th recorded
object in a loop over enumerate(recorded_objects), cache it on the
recorder and return it. -/
def process_tracked_objects (r : BrightestPointRecorder) :
    List (List (ℚ × ℚ × ℚ)) × BrightestPointRecorder :=
  let zeros := List.replicate r.recorded_objects.length [((0 : ℚ), (0 : ℚ), (0 : ℚ))]
  let arr := (r.recorded_objects.enum).foldl
    (fun a entry => a.set entry.1 (pointRow entry.2)) zeros
  (arr, { r with recorded_objects_array := some arr })

end BrightPoint

namespace Batch

/-- One per-video trajectory array handed back by process_single_video: a
rectangular numpy array of shape (numFrames, numPoints, 3). -/
structure VideoArray where
  numFrames : ℕ
  numPoints : ℕ
  data : List (List Triple)
  frames_eq : data.length = numFrames
  rows_eq : ∀ row ∈ data, row.length = numPoints

/-- The combined batch artifact: shape (num cameras, num frames,
num points, 3) plus the stacked data. -/
structure CombinedArray where
  numCameras : ℕ
  numFrames : ℕ
  numPoints : ℕ
  data : List (List (List Triple))

/-- np.stack along a new leading axis: fails on an empty list, fails when
any two inputs disagree in shape, and otherwise prepends a camera axis
without touching any element. -/
def np_stack : List VideoArray → Except String CombinedArray
  | [] => Except.error "need at least one array to stack"
  | a :: rest =>
      if rest.all (fun b => b.numFrames == a.numFrames && b.numPoints == a.numPoints) then
        Except.ok
          { numCameras := (a :: rest).length
            numFrames := a.numFrames
            numPoints := a.numPoints
            data := (a :: rest).map (fun v => v.data) }
      else
        Except.error "all input arrays must have the same shape"

/-- Default worker count derivation (process_folder_of_videos lines 55-58):
min(cpu_count() - 1, number of discovered .mp4 files).  Integers model
Python ints exactly; cpu_count is at least 1 on any real machine but the
definition itself imposes no bound. -/
def derive_num_processes (cpuCount : ℕ) (mp4Files : List α) : ℤ :=
  min ((cpuCount : ℤ) - 1) (mp4Files.length : ℤ)

/-- Pool.starmap: CPython documents that the result list is in the order
of the input iterable, independent of worker scheduling, and each task is
a pure function of its immutable argument tuple here (a fresh tracker is
constructed inside the task), so the gather is an order-preserving map. -/
def pool_starmap (runSingle : α → VideoArray) (tasks : List α) : List VideoArray :=
  tasks.map runSingle

/-- Computational core of process_folder_of_videos: derive the worker count
when unspecified, build one task per discovered .mp4 file in discovery
order, run the tasks through the pool when num_processes exceeds one and
through a sequential append loop otherwise, and stack the per-video
arrays along a new camera axis.  runSingle stands for
process_single_video, an opaque per-file computation; path handling and
persistence are filesystem effects outside the model. -/
def process_folder_of_videos (cpuCount : ℕ) (mp4Files : List α)
    (num_processes : Option ℤ) (runSingle : α → VideoArray) :
    Except String CombinedArray :=
  let np : ℤ :=
    match num_processes with
    | none => derive_num_processes cpuCount mp4Files
    | some k => k
  let tasks := mp4Files
  let array_list :=
    if np > 1 then
      pool_starmap runSingle tasks
    else
      tasks.foldl (fun acc task => acc ++ [runSingle task]) []
  np_stack array_list

end Batch

namespace Mediapipe

theorem length_landmarks_to_array (obs : MediapipeObservation) (l : List Landmark) :
    (obs.landmarks_to_array l).length = l.length := by
  simp [MediapipeObservation.landmarks_to_array]

/-- C1: for every MediapipeObservation whose present landmark regions carry
their full mediapipe landmark lists, whichever subset of the four regions
is None — including all of them — all_holistic_trajectories has exactly
num_body_points + 2 * num_single_hand_points + num_face_points rows, and
the block of every None region is filled entirely with NaN rows. -/
theorem all_holistic_trajectories_shape
    (obs : MediapipeObservation)
    (hp : obs.pose_landmarks = none ∨
      ∃ l, obs.pose_landmarks = some l ∧ l.length = num_body_points)
    (hr : obs.right_hand_landmarks = none ∨
      ∃ l, obs.right_hand_landmarks = some l ∧ l.length = num_single_hand_points)
    (hl : obs.left_hand_landmarks = none ∨
      ∃ l, obs.left_hand_landmarks = some l ∧ l.length = num_single_hand_points)
    (hf : obs.face_landmarks = none ∨
      ∃ l, obs.face_landmarks = some l ∧ l.length = num_face_points) :
    obs.all_holistic_trajectories.length = num_total_points ∧
    (obs.pose_landmarks = none →
      obs.all_holistic_trajectories.take num_body_points =
        List.replicate num_body_points nanTriple) ∧
    (obs.right_hand_landmarks = none →
      (obs.all_holistic_trajectories.drop num_body_points).take num_single_hand_points =
        List.replicate num_single_hand_points nanTriple) ∧
    (obs.left_hand_landmarks = none →
      ((obs.all_holistic_trajectories.drop num_body_points).drop
          num_single_hand_points).take num_single_hand_points =
        List.replicate num_single_hand_points nanTriple) ∧
    (obs.face_landmarks = none →
      ((obs.all_holistic_trajectories.drop num_body_points).drop
          num_single_hand_points).drop num_single_hand_points =
        List.replicate num_face_points nanTriple) := by
  have hplen : obs.pose_trajectories.length = num_body_points := by
    rcases hp with h | ⟨l, h, hlen⟩
    · simp [MediapipeObservation.pose_trajectories, h]
    · simp [MediapipeObservation.pose_trajectories, h, length_landmarks_to_array, hlen]
  have hrlen : obs.right_hand_trajectories.length = num_single_hand_points := by
    rcases hr with h | ⟨l, h, hlen⟩
    · simp [MediapipeObservation.right_hand_trajectories, h]
    · simp [MediapipeObservation.right_hand_trajectories, h, length_landmarks_to_array, hlen]
  have hllen : obs.left_hand_trajectories.length = num_single_hand_points := by
    rcases hl with h | ⟨l, h, hlen⟩
    · simp [MediapipeObservation.left_hand_trajectories, h]
    · simp [MediapipeObservation.left_hand_trajectories, h, length_landmarks_to_array, hlen]
  have hflen : obs.face_trajectories.length = num_face_points := by
    rcases hf with h | ⟨l, h, hlen⟩
    · simp [MediapipeObservation.face_trajectories, h]
    · simp [MediapipeObservation.face_trajectories, h, length_landmarks_to_array, hlen]
  have hall : obs.all_holistic_trajectories =
      obs.pose_trajectories ++ (obs.right_hand_trajectories ++
        (obs.left_hand_trajectories ++ obs.face_trajectories)) := by
    simp [MediapipeObservation.all_holistic_trajectories]
  have hdrop1 : obs.all_holistic_trajectories.drop num_body_points =
      obs.right_hand_trajectories ++ (obs.left_hand_trajectories ++ obs.face_trajectories) := by
    rw [hall, List.drop_left' hplen]
  have hdrop2 : (obs.all_holistic_trajectories.drop num_body_points).drop
      num_single_hand_points = obs.left_hand_trajectories ++ obs.face_trajectories := by
    rw [hdrop1, List.drop_left' hrlen]
  refine ⟨?_, ?_, ?_, ?_, ?_⟩
  · rw [hall]
    simp only [List.length_append, hplen, hrlen, hllen, hflen]
    rfl
  · intro h
    rw [hall, List.take_left' hplen]
    simp [MediapipeObservation.pose_trajectories, h]
  · intro h
    rw [hdrop1, List.take_left' hrlen]
    simp [MediapipeObservation.right_hand_trajectories, h]
  · intro h
    rw [hdrop2, List.take_left' hllen]
    simp [MediapipeObservation.left_hand_trajectories, h]
  · intro h
    rw [hdrop2, List.drop_left' hllen]
    simp [MediapipeObservation.face_trajectories, h]

/-- C1 witness: the all-None observation (total detection failure) at a
concrete image size has 553 rows and every region block entirely NaN. -/
theorem all_holistic_trajectories_shape_witness :
    (⟨none, none, none, none, (10, 10)⟩ :
        MediapipeObservation).all_holistic_trajectories.length = num_total_points ∧
    (⟨none, none, none, none, (10, 10)⟩ :
        MediapipeObservation).all_holistic_trajectories.take num_body_points =
      List.replicate num_body_points nanTriple ∧
    ((⟨none, none, none, none, (10, 10)⟩ :
        MediapipeObservation).all_holistic_trajectories.drop num_body_points).take
        num_single_hand_points =
      List.replicate num_single_hand_points nanTriple ∧
    (((⟨none, none, none, none, (10, 10)⟩ :
        MediapipeObservation).all_holistic_trajectories.drop num_body_points).drop
        num_single_hand_points).take num_single_hand_points =
      List.replicate num_single_hand_points nanTriple ∧
    (((⟨none, none, none, none, (10, 10)⟩ :
        MediapipeObservation).all_holistic_trajectories.drop num_body_points).drop
        num_single_hand_points).drop num_single_hand_points =
      List.replicate num_face_points nanTriple := by
  have h := all_holistic_trajectories_shape ⟨none, none, none, none, (10, 10)⟩
    (Or.inl rfl) (Or.inl rfl) (Or.inl rfl) (Or.inl rfl)
  exact ⟨h.1, h.2.1 rfl, h.2.2.1 rfl, h.2.2.2.1 rfl, h.2.2.2.2 rfl⟩

/-- C8: on non-empty landmark input, landmarks_to_array sends each
normalized (x, y, z) to (x * width, y * height, z * width) — depth is
scaled by the image width, not the height. -/
theorem landmarks_to_array_scaling
    (obs : MediapipeObservation) (landmarks : List Landmark)
    (_hne : landmarks ≠ []) :
    obs.landmarks_to_array landmarks =
      landmarks.map (fun lm =>
        (lm.1 * (obs.image_size.1 : ℚ),
         lm.2.1 * (obs.image_size.2 : ℚ),
         lm.2.2 * (obs.image_size.1 : ℚ))) := by
  simp [MediapipeObservation.landmarks_to_array]

/-- C8 witness: one landmark (1/2, 1/4, 3) on a 640 x 480 frame lands at
x = 320, y = 120, depth = 1920 (depth times width). -/
theorem landmarks_to_array_scaling_witness :
    (⟨none, none, none, none, (640, 480)⟩ :
        MediapipeObservation).landmarks_to_array [((1 : ℚ)/2, (1 : ℚ)/4, (3 : ℚ))] =
      [((1 : ℚ)/2, (1 : ℚ)/4, (3 : ℚ))].map (fun lm =>
        (lm.1 * ((640 : ℤ) : ℚ), lm.2.1 * ((480 : ℤ) : ℚ), lm.2.2 * ((640 : ℤ) : ℚ))) :=
  landmarks_to_array_scaling ⟨none, none, none, none, (640, 480)⟩
    [((1 : ℚ)/2, (1 : ℚ)/4, (3 : ℚ))] (by decide)

/-- C6 counterexample: the all-None observation has all-NaN trajectories —
values the JSON target format cannot express — yet to_serializable_dict
succeeds and returns the dict with the NaN values passed through, because
json.dumps with its default allow_nan=True never raises on them. -/
theorem to_serializable_dict_nan_counterexample :
    SerDict.hasNonFinite
        ((⟨none, none, none, none, (10, 10)⟩ :
          MediapipeObservation).serializable_dict_of) = true ∧
    (⟨none, none, none, none, (10, 10)⟩ :
        MediapipeObservation).to_serializable_dict =
      Except.ok ((⟨none, none, none, none, (10, 10)⟩ :
        MediapipeObservation).serializable_dict_of) :=
  ⟨by decide, rfl⟩

/-- C6 amended: to_serializable_dict never raises; for every observation it
returns the dict of the four trajectory lists and the image size
unchanged, non-finite values included, since json.dumps with its default
allow_nan=True encodes NaN and the infinities as tokens instead of
failing. -/
theorem to_serializable_dict_total (obs : MediapipeObservation) :
    obs.to_serializable_dict = Except.ok obs.serializable_dict_of ∧
    obs.serializable_dict_of.pose_trajectories = obs.pose_trajectories ∧
    obs.serializable_dict_of.right_hand_trajectories = obs.right_hand_trajectories ∧
    obs.serializable_dict_of.left_hand_trajectories = obs.left_hand_trajectories ∧
    obs.serializable_dict_of.face_trajectories = obs.face_trajectories :=
  ⟨rfl, rfl, rfl, rfl, rfl⟩

end Mediapipe

namespace OpenPose

/-- A person whose pose has 25 keypoints all at (1, 1) with confidence 1. -/
def personOnes : PersonData := ⟨some (List.replicate 75 1), none, none, none⟩

/-- A person whose pose has 25 keypoints all at (2, 2) with confidence 2. -/
def personTwos : PersonData := ⟨some (List.replicate 75 2), none, none, none⟩

/-- A result file whose filename encodes frame index 1. -/
def fileIdx1 : OpenPoseFile := ⟨"video_000000000001_keypoints.json", [personOnes]⟩

/-- A result file whose filename encodes frame index 0. -/
def fileIdx0 : OpenPoseFile := ⟨"video_000000000000_keypoints.json", [personTwos]⟩

/-- C2 failing-input evaluation: over a directory whose two files encode
the distinct frame indices 1 and 0 but are discovered in that order, the
parsed array puts the keypoints of the index-1 file into row 0 and the
keypoints of the index-0 file into row 1 (the two keypoint sets differ, so
the swap is observable): the index list is sorted detached from the file
list, pairing the i-th discovered file with the i-th smallest index
instead of its own. -/
theorem parse_openpose_jsons_row_misassignment :
    extract_frame_index fileIdx1.name = some 1 ∧
    extract_frame_index fileIdx0.name = some 0 ∧
    parse_openpose_jsons ⟨true, true⟩ [fileIdx1, fileIdx0] =
      Except.ok
        [List.replicate 25 (finTriple (1, 1, 1)) ++ List.replicate 112 nanTriple,
         List.replicate 25 (finTriple (2, 2, 2)) ++ List.replicate 112 nanTriple] ∧
    (List.replicate 25 (finTriple ((1 : ℚ), 1, 1)) ++ List.replicate 112 nanTriple) ≠
      (List.replicate 25 (finTriple (2, 2, 2)) ++ List.replicate 112 nanTriple) := by
  refine ⟨rfl, rfl, by decide, by decide⟩

/-- A person whose pose has 25 keypoints all at (3, 3) with confidence 3. -/
def personThrees : PersonData := ⟨some (List.replicate 75 3), none, none, none⟩

/-- C7 failing-input evaluation: with the hand and face flags disabled (the
constructor defaults) the output array is sized to the body block alone,
but extract_keypoints ignores the flags and always returns the full
body + 2 hands + face array, so ingesting any file that reports a person
fails with a broadcast ValueError instead of succeeding with the enabled
sub-blocks populated. -/
theorem parse_openpose_jsons_disabled_regions_broadcast_error :
    extract_keypoints personThrees =
      Except.ok (List.replicate 25 (finTriple (3, 3, 3)) ++ List.replicate 112 nanTriple) ∧
    parse_openpose_jsons ⟨false, false⟩ [⟨"video_000000000000_keypoints.json", [personThrees]⟩] =
      Except.error "could not broadcast input array" := by
  refine ⟨by decide, by decide⟩

end OpenPose

namespace BrightPoint

theorem foldl_set_enumFrom {α β : Type} (f : α → β) (l : List α) :
    ∀ (k : ℕ) (init : List β), init.length = k + l.length →
      ((l.enumFrom k).foldl (fun a e => a.set e.1 (f e.2)) init) =
        init.take k ++ l.map f := by
  induction l with
  | nil =>
      intro k init h
      simp only [List.length_nil, Nat.add_zero] at h
      simp [List.take_of_length_le (le_of_eq h)]
  | cons x xs ih =>
      intro k init h
      simp only [List.length_cons] at h
      have hk : k < init.length := by omega
      rw [List.enumFrom_cons, List.foldl_cons]
      have hlen : (init.set k (f x)).length = (k + 1) + xs.length := by
        simp only [List.length_set]
        omega
      rw [ih (k + 1) _ hlen]
      have hset : init.set k (f x) = init.take k ++ (f x) :: init.drop (k + 1) :=
        List.set_eq_take_cons_drop _ hk
      rw [hset, List.take_append_eq_append_take]
      have hlt : (init.take k).length = k := by
        rw [List.length_take]
        omega
      rw [List.take_of_length_le (by omega : (init.take k).length ≤ k + 1), hlt]
      have h1 : k + 1 - k = 1 := by omega
      rw [h1]
      simp

/-- C9: process_tracked_objects is a pure function of the recorded
objects: it returns one frame row per recorded object, each a single
(pixel_x, pixel_y, depth_z) point, and calling it again on the recorder it
returns — with no intervening record — yields the identical array. -/
theorem process_tracked_objects_idempotent (r : BrightestPointRecorder) :
    (process_tracked_objects r).1 = r.recorded_objects.map pointRow ∧
    (process_tracked_objects r).1.length = r.recorded_objects.length ∧
    (process_tracked_objects ((process_tracked_objects r).2)).1 =
      (process_tracked_objects r).1 := by
  have key : ∀ (objs : List TrackedObject),
      ((objs.enum).foldl (fun a e => a.set e.1 (pointRow e.2))
        (List.replicate objs.length [((0 : ℚ), (0 : ℚ), (0 : ℚ))])) =
        objs.map pointRow := by
    intro objs
    rw [List.enum_eq_enumFrom, foldl_set_enumFrom pointRow objs 0 _ (by simp)]
    simp
  refine ⟨key r.recorded_objects, ?_, ?_⟩
  · rw [show (process_tracked_objects r).1 =
      r.recorded_objects.map pointRow from key r.recorded_objects]
    simp
  · exact (key r.recorded_objects).trans (key r.recorded_objects).symm

end BrightPoint

namespace Batch

theorem foldl_append_eq_map {α β : Type} (f : α → β) (l : List α) :
    l.foldl (fun acc t => acc ++ [f t]) [] = l.map f := by
  suffices h : ∀ acc : List β, l.foldl (fun acc t => acc ++ [f t]) acc = acc ++ l.map f by
    simpa using h []
  induction l with
  | nil => intro acc; simp
  | cons x xs ih => intro acc; simp [ih]

theorem process_folder_eq_stack_map {α : Type} (cpuCount : ℕ) (mp4Files : List α)
    (num_processes : Option ℤ) (runSingle : α → VideoArray) :
    process_folder_of_videos cpuCount mp4Files num_processes runSingle =
      np_stack (mp4Files.map runSingle) := by
  unfold process_folder_of_videos pool_starmap
  cases num_processes <;> simp [foldl_append_eq_map]

/-- C3: the batch job errors whenever two per-video arrays disagree on
frame or point count, and when they all agree it returns the combined
array of shape (num cameras, num frames, num points, 3) holding every
per-video array untouched (no truncation or padding), in discovery
order. -/
theorem process_folder_shape_discipline {α : Type} (cpuCount : ℕ) (mp4Files : List α)
    (num_processes : Option ℤ) (runSingle : α → VideoArray) (file0 : α)
    (hmem : file0 ∈ mp4Files) :
    ((∃ f1 ∈ mp4Files, ∃ f2 ∈ mp4Files,
        (runSingle f1).numFrames ≠ (runSingle f2).numFrames ∨
        (runSingle f1).numPoints ≠ (runSingle f2).numPoints) →
      process_folder_of_videos cpuCount mp4Files num_processes runSingle =
        Except.error "all input arrays must have the same shape") ∧
    ((∀ f1 ∈ mp4Files, ∀ f2 ∈ mp4Files,
        (runSingle f1).numFrames = (runSingle f2).numFrames ∧
        (runSingle f1).numPoints = (runSingle f2).numPoints) →
      process_folder_of_videos cpuCount mp4Files num_processes runSingle =
        Except.ok ⟨mp4Files.length, (runSingle file0).numFrames,
          (runSingle file0).numPoints,
          (mp4Files.map runSingle).map (fun v => v.data)⟩) := by
  rw [process_folder_eq_stack_map]
  cases mp4Files with
  | nil => cases hmem
  | cons x xs =>
      constructor
      · rintro ⟨f1, hf1, f2, hf2, hne⟩
        rw [List.map_cons]
        simp only [np_stack]
        have hcond : ¬ ((xs.map runSingle).all
            (fun b => b.numFrames == (runSingle x).numFrames &&
              b.numPoints == (runSingle x).numPoints) = true) := by
          intro hall
          rw [List.all_eq_true] at hall
          have hshape : ∀ f ∈ x :: xs,
              (runSingle f).numFrames = (runSingle x).numFrames ∧
              (runSingle f).numPoints = (runSingle x).numPoints := by
            intro f hf
            rcases List.mem_cons.mp hf with rfl | hf'
            · exact ⟨rfl, rfl⟩
            · have hb := hall (runSingle f) (List.mem_map_of_mem runSingle hf')
              simpa using hb
          obtain ⟨h1f, h1p⟩ := hshape f1 hf1
          obtain ⟨h2f, h2p⟩ := hshape f2 hf2
          rcases hne with h | h
          · exact h (h1f.trans h2f.symm)
          · exact h (h1p.trans h2p.symm)
        rw [if_neg hcond]
      · intro hagree
        rw [List.map_cons]
        simp only [np_stack]
        have hcond : (xs.map runSingle).all
            (fun b => b.numFrames == (runSingle x).numFrames &&
              b.numPoints == (runSingle x).numPoints) = true := by
          rw [List.all_eq_true]
          intro b hb
          rcases List.mem_map.mp hb with ⟨f, hf, rfl⟩
          have hfx := hagree f (List.mem_cons_of_mem _ hf) x (List.mem_cons_self _ _)
          simp [hfx.1, hfx.2]
        rw [if_pos hcond]
        have hx0 := hagree x (List.mem_cons_self _ _) file0 hmem
        simp [CombinedArray.mk.injEq, hx0.1, hx0.2]

/-- A one-frame, one-point sample per-video array for concrete instances. -/
def sampleVideoArray : VideoArray := ⟨1, 1, [[nanTriple]], rfl, by decide⟩

/-- C3 witness: two discovered one-frame files processed by a constant
per-video computation agree on shape, and the batch returns the stacked
(2, 1, 1, 3) array. -/
theorem process_folder_shape_discipline_witness :
    (0 : ℕ) ∈ [0, 1] ∧
    process_folder_of_videos 4 [0, 1] none (fun _ : ℕ => sampleVideoArray) =
      Except.ok ⟨2, 1, 1, [[[nanTriple]], [[nanTriple]]]⟩ := by
  have h := process_folder_shape_discipline 4 [0, 1] none
    (fun _ : ℕ => sampleVideoArray) 0 (by decide)
  have hok := h.2 (by intro f1 _ f2 _; exact ⟨rfl, rfl⟩)
  exact ⟨by decide, hok⟩

/-- C4: with a worker count of at most one the sequential append loop
runs, with a worker count above one the pool starmap runs, and the two
paths produce the identical combined array, stacked over the per-video
results in file-discovery order. -/
theorem sequential_parallel_bit_identical {α : Type} (cpuCount : ℕ)
    (mp4Files : List α) (runSingle : α → VideoArray) (kseq kpar : ℤ)
    (hseq : kseq ≤ 1) (hpar : 1 < kpar) :
    process_folder_of_videos cpuCount mp4Files (some kseq) runSingle =
      np_stack (mp4Files.foldl (fun acc task => acc ++ [runSingle task]) []) ∧
    process_folder_of_videos cpuCount mp4Files (some kpar) runSingle =
      np_stack (pool_starmap runSingle mp4Files) ∧
    process_folder_of_videos cpuCount mp4Files (some kseq) runSingle =
      process_folder_of_videos cpuCount mp4Files (some kpar) runSingle ∧
    process_folder_of_videos cpuCount mp4Files (some kseq) runSingle =
      np_stack (mp4Files.map runSingle) := by
  refine ⟨?_, ?_, ?_, process_folder_eq_stack_map _ _ _ _⟩
  · simp only [process_folder_of_videos]
    rw [if_neg (by omega : ¬ (kseq > 1))]
  · simp only [process_folder_of_videos]
    rw [if_pos (by omega : kpar > 1)]
  · exact (process_folder_eq_stack_map _ _ _ _).trans
      (process_folder_eq_stack_map _ _ _ _).symm

/-- C4 witness: a two-file folder with a constant per-video computation,
run with one worker and with four workers. -/
theorem sequential_parallel_bit_identical_witness :
    (1 : ℤ) ≤ 1 ∧ (1 : ℤ) < 4 ∧
    (process_folder_of_videos 4 [0, 1] (some 1) (fun _ : ℕ => sampleVideoArray) =
      np_stack (([0, 1] : List ℕ).foldl
        (fun acc task => acc ++ [(fun _ : ℕ => sampleVideoArray) task]) []) ∧
    process_folder_of_videos 4 [0, 1] (some 4) (fun _ : ℕ => sampleVideoArray) =
      np_stack (pool_starmap (fun _ : ℕ => sampleVideoArray) [0, 1]) ∧
    process_folder_of_videos 4 [0, 1] (some 1) (fun _ : ℕ => sampleVideoArray) =
      process_folder_of_videos 4 [0, 1] (some 4) (fun _ : ℕ => sampleVideoArray) ∧
    process_folder_of_videos 4 [0, 1] (some 1) (fun _ : ℕ => sampleVideoArray) =
      np_stack (([0, 1] : List ℕ).map (fun _ : ℕ => sampleVideoArray))) :=
  ⟨by decide, by decide,
    sequential_parallel_bit_identical 4 [0, 1] (fun _ : ℕ => sampleVideoArray) 1 4
      (by decide) (by decide)⟩

/-- C5 counterexample: with four cores and no discovered .mp4 files the
derived worker count is min(3, 0) = 0, below the lower bound of one that
the claim asserts. -/
theorem derive_num_processes_below_one :
    derive_num_processes 4 ([] : List ℕ) = 0 ∧
    derive_num_processes 4 ([] : List ℕ) < 1 := by
  refine ⟨by decide, by decide⟩

/-- C5 amended: when num_processes is None the batch job derives
min(cpu_count() - 1, number of discovered files) — bounded above by both
quantities, with no lower clamp to one (it is 0 whenever there are no
files or only one core). -/
theorem derive_num_processes_bounds {α : Type} (cpuCount : ℕ) (mp4Files : List α)
    (runSingle : α → VideoArray) :
    process_folder_of_videos cpuCount mp4Files none runSingle =
      process_folder_of_videos cpuCount mp4Files
        (some (derive_num_processes cpuCount mp4Files)) runSingle ∧
    derive_num_processes cpuCount mp4Files =
      min ((cpuCount : ℤ) - 1) (mp4Files.length : ℤ) ∧
    derive_num_processes cpuCount mp4Files ≤ (cpuCount : ℤ) - 1 ∧
    derive_num_processes cpuCount mp4Files ≤ (mp4Files.length : ℤ) :=
  ⟨rfl, rfl, min_le_left _ _, min_le_right _ _⟩

/-- C10: on a directory with no .mp4 files the batch job reaches np.stack
with an empty per-video list and fails, rather than returning an empty
combined array. -/
theorem process_folder_empty_dir_error {α : Type} (cpuCount : ℕ)
    (runSingle : α → VideoArray) :
    process_folder_of_videos cpuCount ([] : List α) none runSingle =
      Except.error "need at least one array to stack" := by
  rw [process_folder_eq_stack_map]
  rfl

end Batch

end SkellyTracker
